import Mathlib

/-!
Verification development for the Oberwolfach 2018 deep-learning seminar
notebook (`Part-III-tensorflow-introduction.ipynb`, present in two variants).

The notebook builds one TensorFlow computation graph:

  relu_vector = tf.nn.relu(tf.reshape(tf.matmul(W, tf.reshape(x, [2,1])), [3]) + b)
  loss        = tf.reduce_sum(tf.square(relu_vector - placeholder_output))

and runs a short gradient-descent loop on random inputs.  We embed the
numeric behaviour of the graph operations shallowly over `ℚ` (exact
arithmetic standing for the notebook's float32 values), embed the graph
structure as a small deep expression type, and embed the notebook's
Python cells as a small statement AST, and prove the spec's claims
against these embeddings.
-/

/-! ### Numeric semantics of the tensor operations, at the shapes used

`tf.reshape` is data preserving in row-major order; at the concrete
shapes `[2] → [2,1]` and `[3,1] → [3]` used by the notebook this is the
identity on the underlying data. -/

/-- `tf.reshape(x, [2, 1])` on a 2-vector: a 2×1 column matrix with the
same data in row-major order. -/
def tf_reshape_2_to_21 (x : Fin 2 → ℚ) : Fin 2 → Fin 1 → ℚ :=
  fun i _ => x i

/-- `tf.matmul` of a 3×2 matrix with a 2×1 matrix. -/
def tf_matmul_32_21 (W : Fin 3 → Fin 2 → ℚ) (M : Fin 2 → Fin 1 → ℚ) :
    Fin 3 → Fin 1 → ℚ :=
  fun i k => ∑ j, W i j * M j k

/-- `tf.reshape(m, [3])` on a 3×1 column matrix: the 3-vector with the
same data in row-major order. -/
def tf_reshape_31_to_3 (M : Fin 3 → Fin 1 → ℚ) : Fin 3 → ℚ :=
  fun i => M i 0

/-- `tf.nn.relu` on a 3-vector: componentwise `max 0`. -/
def tf_relu3 (v : Fin 3 → ℚ) : Fin 3 → ℚ :=
  fun i => max 0 (v i)

/-- `matrix_product = tf.reshape(tf.matmul(variable_matrix,
tf.reshape(placeholder_input, [2, 1])), [3])` as a function of the
current matrix value `W` and the fed input `x`. -/
def matrix_product (W : Fin 3 → Fin 2 → ℚ) (x : Fin 2 → ℚ) : Fin 3 → ℚ :=
  tf_reshape_31_to_3 (tf_matmul_32_21 W (tf_reshape_2_to_21 x))

/-- `vector_sum = matrix_product + variable_vector` (componentwise
addition of two 3-vectors). -/
def vector_sum (W : Fin 3 → Fin 2 → ℚ) (b : Fin 3 → ℚ) (x : Fin 2 → ℚ) :
    Fin 3 → ℚ :=
  fun i => matrix_product W x i + b i

/-- `relu_vector = tf.nn.relu(vector_sum)`. -/
def relu_vector (W : Fin 3 → Fin 2 → ℚ) (b : Fin 3 → ℚ) (x : Fin 2 → ℚ) :
    Fin 3 → ℚ :=
  tf_relu3 (vector_sum W b x)

/-- Componentwise subtraction of 3-vectors (the `-` operator on tensors
in `relu_vector - placeholder_output`). -/
def tensor_sub (u v : Fin 3 → ℚ) : Fin 3 → ℚ :=
  fun i => u i - v i

/-- `tf.square` on a 3-vector: componentwise square. -/
def tf_square3 (v : Fin 3 → ℚ) : Fin 3 → ℚ :=
  fun i => v i ^ 2

/-- `tf.reduce_sum` on a 3-vector: the sum of its components. -/
def tf_reduce_sum3 (v : Fin 3 → ℚ) : ℚ :=
  ∑ i, v i

/-- `loss = tf.reduce_sum(tf.square(relu_vector - placeholder_output))`
as a function of the variable values `W`, `b`, the fed input `x` and the
fed target `y`. -/
def loss (W : Fin 3 → Fin 2 → ℚ) (b : Fin 3 → ℚ) (x : Fin 2 → ℚ)
    (y : Fin 3 → ℚ) : ℚ :=
  tf_reduce_sum3 (tf_square3 (tensor_sub (relu_vector W b x) y))

/-! ### Numeric semantics of the numpy target construction

The loop body computes `out_vec = np.maximum(0, np.append(in_vec, 0))*[1, 0, 0]`. -/

/-- `np.append(v, c)` for a 2-vector `v` and a scalar `c`. -/
def np_append_2 (v : Fin 2 → ℚ) (c : ℚ) : Fin 3 → ℚ :=
  ![v 0, v 1, c]

/-- `np.maximum(c, v)` with a scalar first argument: componentwise
maximum against the broadcast scalar. -/
def np_maximum_3 (c : ℚ) (v : Fin 3 → ℚ) : Fin 3 → ℚ :=
  fun i => max c (v i)

/-- The `*` of a numpy 3-vector with the list `[1, 0, 0]`: componentwise
multiplication with the broadcast mask. -/
def np_mask_mul (v m : Fin 3 → ℚ) : Fin 3 → ℚ :=
  fun i => v i * m i

/-- `out_vec = np.maximum(0, np.append(in_vec, 0))*[1, 0, 0]`. -/
def out_vec_np (v : Fin 2 → ℚ) : Fin 3 → ℚ :=
  np_mask_mul (np_maximum_3 0 (np_append_2 v 0)) ![1, 0, 0]

/-- The scalar rectifier, for stating what target map the loop encodes. -/
def reluScalar (x : ℚ) : ℚ := max 0 x

/-! ### The training loop

`optimizer.minimize(loss)` mutates the framework-held variables; the
update rule itself lives inside TensorFlow, so the loop is modelled with
an abstract `step` function on the variable state `(W, b)`.  Each pass of
the Python `for i in range(N)` draws an input, builds the target with
`out_vec_np`, runs one gradient-descent step, and prints the pair
`(i, loss_value)`; `session.run([gradient_descent_step, loss], ...)`
reports the loss of the pre-update variables. -/

/-- The state the optimizer updates: the values of `variable_matrix` and
`variable_vector`. -/
def TrainState : Type := (Fin 3 → Fin 2 → ℚ) × (Fin 3 → ℚ)

/-- One modelled execution trace of the loop body over a list of
iteration indices: returns the printed `(index, loss_value)` pairs. -/
def trainingIters (step : TrainState → (Fin 2 → ℚ) → (Fin 3 → ℚ) → TrainState)
    (inputs : ℕ → Fin 2 → ℚ) : List ℕ → TrainState → List (ℕ × ℚ)
  | [], _ => []
  | i :: rest, s =>
      (i, loss s.1 s.2 (inputs i) (out_vec_np (inputs i))) ::
        trainingIters step inputs rest (step s (inputs i) (out_vec_np (inputs i)))

/-- The whole loop `for i in range(n): ...`: iterate over
`List.range n` from the initial variable state. -/
def trainingLoop (n : ℕ)
    (step : TrainState → (Fin 2 → ℚ) → (Fin 3 → ℚ) → TrainState)
    (inputs : ℕ → Fin 2 → ℚ) (s₀ : TrainState) : List (ℕ × ℚ) :=
  trainingIters step inputs (List.range n) s₀

/-! ### The computation graph as data

TensorFlow builds the graph by value: each `tf.*` call returns a node
whose children are the already-built argument nodes, so the Python
variables holding tensors are inlined here.  A `placeholderT` node
carries only a name and a declared shape (an entry `none` is an
undetermined dimension, TensorFlow's `None`) and no data field, exactly
as `tf.placeholder` binds no data. -/

/-- A node of the notebook's computation graph. -/
inductive TExpr where
  /-- `tf.constant` of a numpy array of the given shape (random data). -/
  | constRandn (r c : ℕ) : TExpr
  /-- `tf.constant` of a scalar value. -/
  | constScalar (v : ℚ) : TExpr
  /-- `tf.Variable` with a name and shape. -/
  | varT (nm : String) (shape : List ℕ) : TExpr
  /-- `tf.placeholder` with a name and a declared shape, no data. -/
  | placeholderT (nm : String) (shape : List (Option ℕ)) : TExpr
  /-- `tf.reshape` to a target shape (an entry `-1` is inferred). -/
  | reshapeT (e : TExpr) (shape : List ℤ) : TExpr
  /-- `tf.matmul`. -/
  | matmulT (a b : TExpr) : TExpr
  /-- The `+` operator on tensors. -/
  | addT (a b : TExpr) : TExpr
  /-- The `-` operator on tensors. -/
  | subT (a b : TExpr) : TExpr
  /-- `tf.square`. -/
  | squareT (e : TExpr) : TExpr
  /-- `tf.reduce_sum`. -/
  | reduceSumT (e : TExpr) : TExpr
  /-- `tf.nn.relu`. -/
  | reluT (e : TExpr) : TExpr
  /-- `tf.layers.dense` with a unit count (activation relu). -/
  | denseT (e : TExpr) (units : ℕ) : TExpr
  /-- `optimizer.minimize(e)` for `tf.train.GradientDescentOptimizer(lr)`. -/
  | minimizeT (lr : ℚ) (e : TExpr) : TExpr
  /-- `tf.global_variables_initializer()`. -/
  | globalVarsInitT : TExpr
deriving DecidableEq

/-- The names of the placeholders a graph node depends on. -/
def placeholdersOf : TExpr → List String
  | .constRandn _ _ => []
  | .constScalar _ => []
  | .varT _ _ => []
  | .placeholderT nm _ => [nm]
  | .reshapeT e _ => placeholdersOf e
  | .matmulT a b => placeholdersOf a ++ placeholdersOf b
  | .addT a b => placeholdersOf a ++ placeholdersOf b
  | .subT a b => placeholdersOf a ++ placeholdersOf b
  | .squareT e => placeholdersOf e
  | .reduceSumT e => placeholdersOf e
  | .reluT e => placeholdersOf e
  | .denseT e _ => placeholdersOf e
  | .minimizeT _ e => placeholdersOf e
  | .globalVarsInitT => []

/-- The placeholder names any of a list of requested nodes depends on. -/
def placeholdersOfList (es : List TExpr) : List String :=
  (es.map placeholdersOf).flatten

/-- One `session.run(requested, feed_dict)` call: the requested nodes
and the names of the placeholders given values in the feed dict. -/
structure RunCall where
  requested : List TExpr
  fed : List String
deriving DecidableEq

/-- A run call feeds exactly the placeholders its requested tensors
depend on (set equality of name lists). -/
def feedMatchesDeps (c : RunCall) : Bool :=
  c.fed.all (fun nm => nm ∈ placeholdersOfList c.requested) &&
    (placeholdersOfList c.requested).all (fun nm => nm ∈ c.fed)

/-! Graph nodes built by both notebook variants (identical except for
the learning rate inside `gradient_descent_step`). -/

/-- `variable_matrix = tf.Variable(np.random.randn(3,2), ...)`. -/
def g_variable_matrix : TExpr := .varT "my_matrix" [3, 2]

/-- `variable_vector = tf.Variable(np.random.randn(3), ...)`. -/
def g_variable_vector : TExpr := .varT "my_vector" [3]

/-- `placeholder_input = tf.placeholder(dtype=tf.float32, shape=(2,), name=...)`. -/
def g_placeholder_input : TExpr := .placeholderT "my_input" [some 2]

/-- `matrix_product = tf.reshape(tf.matmul(variable_matrix, tf.reshape(placeholder_input, [2, 1])), [3])`. -/
def g_matrix_product : TExpr :=
  .reshapeT (.matmulT g_variable_matrix (.reshapeT g_placeholder_input [2, 1])) [3]

/-- `vector_sum = matrix_product + variable_vector`. -/
def g_vector_sum : TExpr := .addT g_matrix_product g_variable_vector

/-- `relu_vector = tf.nn.relu(vector_sum)`. -/
def g_relu_vector : TExpr := .reluT g_vector_sum

/-- `placeholder_output = tf.placeholder(dtype=tf.float32, shape=[3], name=...)`. -/
def g_placeholder_output : TExpr := .placeholderT "my_output" [some 3]

/-- `loss = tf.reduce_sum(tf.square(relu_vector - placeholder_output))`. -/
def g_loss : TExpr := .reduceSumT (.squareT (.subT g_relu_vector g_placeholder_output))

/-- `batched_vectors = tf.placeholder(dtype=tf.float32, shape=[None, 5])`
(no name argument; TensorFlow defaults the name to `Placeholder`). -/
def g_batched_vectors : TExpr := .placeholderT "Placeholder" [none, some 5]

/-- `gradient_descent_step` in `src/unnamed/part_000`, learning rate `0.1`. -/
def p000_gradient_descent_step : TExpr := .minimizeT (1/10) g_loss

/-- `gradient_descent_step` in the `interactive-experiments` ipynb,
learning rate `0.07`. -/
def ipynb_gradient_descent_step : TExpr := .minimizeT (7/100) g_loss

/-- The four `session.run` call shapes of `src/unnamed/part_000`, in
program order (the third one is executed once per loop iteration). -/
def p000_runCalls : List RunCall :=
  [⟨[.globalVarsInitT], []⟩,
   ⟨[g_relu_vector], ["my_input"]⟩,
   ⟨[p000_gradient_descent_step, g_loss], ["my_input", "my_output"]⟩,
   ⟨[g_variable_matrix, g_variable_vector], []⟩]

/-- The four `session.run` call shapes of the ipynb variant. -/
def ipynb_runCalls : List RunCall :=
  [⟨[.globalVarsInitT], []⟩,
   ⟨[g_relu_vector], ["my_input"]⟩,
   ⟨[ipynb_gradient_descent_step, g_loss], ["my_input", "my_output"]⟩,
   ⟨[g_variable_matrix, g_variable_vector], []⟩]

/-! ### The notebook cells as a Python statement AST

Call arity is explicit in the constructor (`call0` … `call5`); keyword
arguments (`dtype=`, `name=`, `activation=`) are transcribed as trailing
positional arguments.  The AST has constructors for `try/except`,
`raise`, `assert`, `def` and `class` so that their absence from the
transcription is a checkable fact, not a typing accident. -/

/-- A Python expression of the notebook. -/
inductive PyExpr where
  | call0 (fn : String) : PyExpr
  | call1 (fn : String) (a : PyExpr) : PyExpr
  | call2 (fn : String) (a b : PyExpr) : PyExpr
  | call3 (fn : String) (a b c : PyExpr) : PyExpr
  | call4 (fn : String) (a b c d : PyExpr) : PyExpr
  | call5 (fn : String) (a b c d e : PyExpr) : PyExpr
  /-- A reference to a previously bound name. -/
  | nameRef (s : String) : PyExpr
  | num (q : ℚ) : PyExpr
  | strLit (s : String) : PyExpr
  | list1 (a : PyExpr) : PyExpr
  | list2 (a b : PyExpr) : PyExpr
  | list3 (a b c : PyExpr) : PyExpr
  | tuple1 (a : PyExpr) : PyExpr
  | noneLit : PyExpr
  /-- A `key: value` entry of a dict literal. -/
  | kv (k v : PyExpr) : PyExpr
  | dict1 (a : PyExpr) : PyExpr
  | dict2 (a b : PyExpr) : PyExpr
  | binop (op : String) (a b : PyExpr) : PyExpr
deriving DecidableEq

/-- A simple (non-compound) Python statement. -/
inductive PyStmtB where
  | assignB (lhs : String) (rhs : PyExpr) : PyStmtB
  /-- Tuple-unpacking assignment `a, b = rhs`. -/
  | assignB2 (l1 l2 : String) (rhs : PyExpr) : PyStmtB
  | exprStmtB (e : PyExpr) : PyStmtB
  | raiseB : PyStmtB
  | assertB (e : PyExpr) : PyStmtB
deriving DecidableEq

/-- A top-level Python statement of the notebook. -/
inductive PyStmt where
  | imp (modName asName : String) : PyStmt
  | basic (s : PyStmtB) : PyStmt
  /-- `for v in range(count): body`. -/
  | forRange (v : String) (count : ℕ) (body : List PyStmtB) : PyStmt
  | tryExcept (body handler : List PyStmtB) : PyStmt
  | funcDef (nm : String) (body : List PyStmtB) : PyStmt
  | classDef (nm : String) : PyStmt
deriving DecidableEq

/-- The heads of all calls occurring in an expression. -/
def callHeadsE : PyExpr → List String
  | .call0 fn => [fn]
  | .call1 fn a => fn :: callHeadsE a
  | .call2 fn a b => fn :: (callHeadsE a ++ callHeadsE b)
  | .call3 fn a b c => fn :: (callHeadsE a ++ callHeadsE b ++ callHeadsE c)
  | .call4 fn a b c d =>
      fn :: (callHeadsE a ++ callHeadsE b ++ callHeadsE c ++ callHeadsE d)
  | .call5 fn a b c d e =>
      fn :: (callHeadsE a ++ callHeadsE b ++ callHeadsE c ++ callHeadsE d ++ callHeadsE e)
  | .nameRef _ => []
  | .num _ => []
  | .strLit _ => []
  | .list1 a => callHeadsE a
  | .list2 a b => callHeadsE a ++ callHeadsE b
  | .list3 a b c => callHeadsE a ++ callHeadsE b ++ callHeadsE c
  | .tuple1 a => callHeadsE a
  | .noneLit => []
  | .kv k v => callHeadsE k ++ callHeadsE v
  | .dict1 a => callHeadsE a
  | .dict2 a b => callHeadsE a ++ callHeadsE b
  | .binop _ a b => callHeadsE a ++ callHeadsE b

/-- The heads of all calls in a simple statement. -/
def callHeadsB : PyStmtB → List String
  | .assignB _ rhs => callHeadsE rhs
  | .assignB2 _ _ rhs => callHeadsE rhs
  | .exprStmtB e => callHeadsE e
  | .raiseB => []
  | .assertB e => callHeadsE e

/-- The heads of all calls in a top-level statement. -/
def callHeadsS : PyStmt → List String
  | .imp _ _ => []
  | .basic s => callHeadsB s
  | .forRange _ _ body => (body.map callHeadsB).flatten
  | .tryExcept body handler =>
      (body.map callHeadsB).flatten ++ (handler.map callHeadsB).flatten
  | .funcDef _ body => (body.map callHeadsB).flatten
  | .classDef _ => []

/-- The heads of all calls in a program. -/
def progCallHeads (prog : List PyStmt) : List String :=
  (prog.map callHeadsS).flatten

/-! ### Transcription of `src/unnamed/part_000`

The code cells in order; `print(...)` statements are kept, markdown
cells have no statements. -/

/-- The Python format template of the loop header line. -/
def headerTemplate : String := "\x7b:8s\x7d\t\x7b:8s\x7d\n\x7b:8s\x7d\t\x7b:8s\x7d"

/-- The Python format template of one loop progress line. -/
def rowTemplate : String := "\x7b:8d\x7d\t\x7b:1.2e\x7d"

/-- The body of `for i in range(...)` — identical in both variants. -/
def trainLoopBody : List PyStmtB :=
  [.assignB "in_vec" (.call1 "np.random.randn" (.num 2)),
   .assignB "out_vec"
     (.binop "*"
       (.call2 "np.maximum" (.num 0) (.call2 "np.append" (.nameRef "in_vec") (.num 0)))
       (.list3 (.num 1) (.num 0) (.num 0))),
   .assignB2 "_" "loss_value"
     (.call2 "session.run"
       (.list2 (.nameRef "gradient_descent_step") (.nameRef "loss"))
       (.dict2 (.kv (.nameRef "placeholder_input") (.nameRef "in_vec"))
               (.kv (.nameRef "placeholder_output") (.nameRef "out_vec")))),
   .exprStmtB (.call1 "print"
     (.call3 "str.format" (.strLit rowTemplate) (.nameRef "i") (.nameRef "loss_value")))]

/-- All statements of `src/unnamed/part_000`, in order. -/
def p000_prog : List PyStmt :=
  [.imp "numpy" "np",
   .imp "tensorflow" "tf",
   .basic (.assignB "constant_scalar" (.call1 "tf.constant" (.num 5))),
   .basic (.exprStmtB (.call1 "print" (.nameRef "constant_scalar"))),
   .basic (.assignB "constant_matrix"
     (.call1 "tf.constant" (.call2 "np.random.randn" (.num 3) (.num 2)))),
   .basic (.exprStmtB (.call1 "print" (.nameRef "constant_matrix"))),
   .basic (.assignB "variable_matrix"
     (.call3 "tf.Variable" (.call2 "np.random.randn" (.num 3) (.num 2))
       (.nameRef "tf.float32") (.strLit "my_matrix"))),
   .basic (.exprStmtB (.call1 "print" (.nameRef "variable_matrix"))),
   .basic (.assignB "variable_vector"
     (.call3 "tf.Variable" (.call1 "np.random.randn" (.num 3))
       (.nameRef "tf.float32") (.strLit "my_vector"))),
   .basic (.exprStmtB (.call1 "print" (.nameRef "variable_vector"))),
   .basic (.assignB "placeholder_input"
     (.call3 "tf.placeholder" (.nameRef "tf.float32") (.tuple1 (.num 2))
       (.strLit "my_input"))),
   .basic (.exprStmtB (.call1 "print" (.nameRef "placeholder_input"))),
   .basic (.assignB "matrix_product"
     (.call2 "tf.reshape"
       (.call2 "tf.matmul" (.nameRef "variable_matrix")
         (.call2 "tf.reshape" (.nameRef "placeholder_input")
           (.list2 (.num 2) (.num 1))))
       (.list1 (.num 3)))),
   .basic (.exprStmtB (.call1 "print" (.nameRef "matrix_product"))),
   .basic (.assignB "vector_sum"
     (.binop "+" (.nameRef "matrix_product") (.nameRef "variable_vector"))),
   .basic (.exprStmtB (.call1 "print" (.nameRef "vector_sum"))),
   .basic (.assignB "relu_vector" (.call1 "tf.nn.relu" (.nameRef "vector_sum"))),
   .basic (.exprStmtB (.call1 "print" (.nameRef "relu_vector"))),
   .basic (.assignB "session" (.call0 "tf.Session")),
   .basic (.exprStmtB
     (.call1 "session.run" (.call0 "tf.global_variables_initializer"))),
   .basic (.assignB "relu_vector_value"
     (.call2 "session.run" (.list1 (.nameRef "relu_vector"))
       (.dict1 (.kv (.nameRef "placeholder_input")
         (.call1 "np.asarray" (.list2 (.num 1) (.num 2))))))),
   .basic (.exprStmtB (.call1 "print" (.nameRef "relu_vector_value"))),
   .basic (.assignB "placeholder_output"
     (.call3 "tf.placeholder" (.nameRef "tf.float32") (.list1 (.num 3))
       (.strLit "my_output"))),
   .basic (.assignB "loss"
     (.call1 "tf.reduce_sum"
       (.call1 "tf.square"
         (.binop "-" (.nameRef "relu_vector") (.nameRef "placeholder_output"))))),
   .basic (.assignB "optimizer"
     (.call1 "tf.train.GradientDescentOptimizer" (.num (1/10)))),
   .basic (.assignB "gradient_descent_step"
     (.call1 "optimizer.minimize" (.nameRef "loss"))),
   .basic (.exprStmtB (.call1 "print"
     (.call5 "str.format" (.strLit headerTemplate) (.strLit "iter")
       (.strLit "loss") (.strLit "--------") (.strLit "--------")))),
   .forRange "i" 150 trainLoopBody,
   .basic (.assignB2 "matrix_value" "vector_value"
     (.call1 "session.run"
       (.list2 (.nameRef "variable_matrix") (.nameRef "variable_vector")))),
   .basic (.exprStmtB (.call1 "print" (.nameRef "matrix_value"))),
   .basic (.exprStmtB (.call1 "print" (.nameRef "vector_value"))),
   .basic (.assignB "batched_vectors"
     (.call2 "tf.placeholder" (.nameRef "tf.float32")
       (.list2 .noneLit (.num 5)))),
   .basic (.exprStmtB (.call1 "print" (.nameRef "batched_vectors"))),
   .basic (.assignB "alternative_relu_vector"
     (.call3 "tf.layers.dense"
       (.call2 "tf.reshape" (.nameRef "placeholder_input")
         (.list2 (.num (-1)) (.num 2)))
       (.num 3) (.nameRef "tf.nn.relu"))),
   .basic (.exprStmtB (.call1 "print" (.nameRef "alternative_relu_vector")))]

/-! ### Transcription of
`src/interactive-experiments/Part-III-tensorflow-introduction.ipynb`

The code cells are identical to `part_000` except the optimizer learning
rate (`0.07` instead of `0.1`) and the loop count (`15` instead of `150`). -/

/-- All statements of the `interactive-experiments` ipynb, in order. -/
def ipynb_prog : List PyStmt :=
  [.imp "numpy" "np",
   .imp "tensorflow" "tf",
   .basic (.assignB "constant_scalar" (.call1 "tf.constant" (.num 5))),
   .basic (.exprStmtB (.call1 "print" (.nameRef "constant_scalar"))),
   .basic (.assignB "constant_matrix"
     (.call1 "tf.constant" (.call2 "np.random.randn" (.num 3) (.num 2)))),
   .basic (.exprStmtB (.call1 "print" (.nameRef "constant_matrix"))),
   .basic (.assignB "variable_matrix"
     (.call3 "tf.Variable" (.call2 "np.random.randn" (.num 3) (.num 2))
       (.nameRef "tf.float32") (.strLit "my_matrix"))),
   .basic (.exprStmtB (.call1 "print" (.nameRef "variable_matrix"))),
   .basic (.assignB "variable_vector"
     (.call3 "tf.Variable" (.call1 "np.random.randn" (.num 3))
       (.nameRef "tf.float32") (.strLit "my_vector"))),
   .basic (.exprStmtB (.call1 "print" (.nameRef "variable_vector"))),
   .basic (.assignB "placeholder_input"
     (.call3 "tf.placeholder" (.nameRef "tf.float32") (.tuple1 (.num 2))
       (.strLit "my_input"))),
   .basic (.exprStmtB (.call1 "print" (.nameRef "placeholder_input"))),
   .basic (.assignB "matrix_product"
     (.call2 "tf.reshape"
       (.call2 "tf.matmul" (.nameRef "variable_matrix")
         (.call2 "tf.reshape" (.nameRef "placeholder_input")
           (.list2 (.num 2) (.num 1))))
       (.list1 (.num 3)))),
   .basic (.exprStmtB (.call1 "print" (.nameRef "matrix_product"))),
   .basic (.assignB "vector_sum"
     (.binop "+" (.nameRef "matrix_product") (.nameRef "variable_vector"))),
   .basic (.exprStmtB (.call1 "print" (.nameRef "vector_sum"))),
   .basic (.assignB "relu_vector" (.call1 "tf.nn.relu" (.nameRef "vector_sum"))),
   .basic (.exprStmtB (.call1 "print" (.nameRef "relu_vector"))),
   .basic (.assignB "session" (.call0 "tf.Session")),
   .basic (.exprStmtB
     (.call1 "session.run" (.call0 "tf.global_variables_initializer"))),
   .basic (.assignB "relu_vector_value"
     (.call2 "session.run" (.list1 (.nameRef "relu_vector"))
       (.dict1 (.kv (.nameRef "placeholder_input")
         (.call1 "np.asarray" (.list2 (.num 1) (.num 2))))))),
   .basic (.exprStmtB (.call1 "print" (.nameRef "relu_vector_value"))),
   .basic (.assignB "placeholder_output"
     (.call3 "tf.placeholder" (.nameRef "tf.float32") (.list1 (.num 3))
       (.strLit "my_output"))),
   .basic (.assignB "loss"
     (.call1 "tf.reduce_sum"
       (.call1 "tf.square"
         (.binop "-" (.nameRef "relu_vector") (.nameRef "placeholder_output"))))),
   .basic (.assignB "optimizer"
     (.call1 "tf.train.GradientDescentOptimizer" (.num (7/100)))),
   .basic (.assignB "gradient_descent_step"
     (.call1 "optimizer.minimize" (.nameRef "loss"))),
   .basic (.exprStmtB (.call1 "print"
     (.call5 "str.format" (.strLit headerTemplate) (.strLit "iter")
       (.strLit "loss") (.strLit "--------") (.strLit "--------")))),
   .forRange "i" 15 trainLoopBody,
   .basic (.assignB2 "matrix_value" "vector_value"
     (.call1 "session.run"
       (.list2 (.nameRef "variable_matrix") (.nameRef "variable_vector")))),
   .basic (.exprStmtB (.call1 "print" (.nameRef "matrix_value"))),
   .basic (.exprStmtB (.call1 "print" (.nameRef "vector_value"))),
   .basic (.assignB "batched_vectors"
     (.call2 "tf.placeholder" (.nameRef "tf.float32")
       (.list2 .noneLit (.num 5)))),
   .basic (.exprStmtB (.call1 "print" (.nameRef "batched_vectors"))),
   .basic (.assignB "alternative_relu_vector"
     (.call3 "tf.layers.dense"
       (.call2 "tf.reshape" (.nameRef "placeholder_input")
         (.list2 (.num (-1)) (.num 2)))
       (.num 3) (.nameRef "tf.nn.relu"))),
   .basic (.exprStmtB (.call1 "print" (.nameRef "alternative_relu_vector")))]

/-! ### Predicates over the transcriptions -/

/-- Call heads that belong to the TensorFlow framework (everything the
notebook reaches through `tf`, the session object or the optimizer
object). -/
def isFrameworkFn (fn : String) : Bool :=
  fn ∈ ["tf.constant", "tf.Variable", "tf.placeholder", "tf.reshape",
        "tf.matmul", "tf.nn.relu", "tf.Session", "session.run",
        "tf.global_variables_initializer", "tf.reduce_sum", "tf.square",
        "tf.train.GradientDescentOptimizer", "optimizer.minimize",
        "tf.layers.dense"]

/-- Call heads that belong to numpy. -/
def isNumpyFn (fn : String) : Bool :=
  fn ∈ ["np.random.randn", "np.asarray", "np.maximum", "np.append"]

/-- The framework primitives the spec enumerates: "constant/variable/
placeholder tensors, matrix multiplication, reshape, ReLU, an optimizer,
a session" — the optimizer covering its construction and `minimize`, the
session covering its construction and `run`. -/
def specEnumeratedPrimitives : List String :=
  ["tf.constant", "tf.Variable", "tf.placeholder", "tf.matmul",
   "tf.reshape", "tf.nn.relu", "tf.train.GradientDescentOptimizer",
   "optimizer.minimize", "tf.Session", "session.run"]

/-- Framework operations the notebook calls beyond the spec's
enumeration. -/
def extraFrameworkPrimitives : List String :=
  ["tf.global_variables_initializer", "tf.reduce_sum", "tf.square",
   "tf.layers.dense"]

/-- Python primitives that perform file, network or CLI input/output. -/
def pythonIoPrimitives : List String :=
  ["open", "input", "socket.socket", "os.system", "subprocess.run",
   "urllib.request.urlopen", "sys.stdout.write", "sys.stdin.read"]

/-- Does a simple statement handle errors (raise or assert)? -/
def stmtBHasErrorHandling : PyStmtB → Bool
  | .raiseB => true
  | .assertB _ => true
  | _ => false

/-- Does a top-level statement handle, raise or validate (try/except,
raise, assert)? -/
def stmtHasErrorHandling : PyStmt → Bool
  | .tryExcept _ _ => true
  | .basic s => stmtBHasErrorHandling s
  | .forRange _ _ body => body.any stmtBHasErrorHandling
  | .funcDef _ body => body.any stmtBHasErrorHandling
  | _ => false

/-- Does a top-level statement define a function or class? -/
def stmtIsDefinition : PyStmt → Bool
  | .funcDef _ _ => true
  | .classDef _ => true
  | _ => false

/-- Is an expression a print call at its root? -/
def isPrintExpr : PyExpr → Bool
  | .call1 "print" _ => true
  | _ => false

/-- Does an expression compute via the framework or numpy: a call whose
head is a framework or numpy function, or an arithmetic combination in
which such a call or a previously bound name occurs? -/
def isComputeExpr : PyExpr → Bool
  | .call0 fn => isFrameworkFn fn || isNumpyFn fn
  | .call1 fn _ => isFrameworkFn fn || isNumpyFn fn
  | .call2 fn _ _ => isFrameworkFn fn || isNumpyFn fn
  | .call3 fn _ _ _ => isFrameworkFn fn || isNumpyFn fn
  | .call4 fn _ _ _ _ => isFrameworkFn fn || isNumpyFn fn
  | .call5 fn _ _ _ _ _ => isFrameworkFn fn || isNumpyFn fn
  | .binop _ a b => isComputeExpr a || isComputeExpr b
  | .nameRef _ => true
  | _ => false

/-- Every simple statement is a print call or a direct framework/numpy
computation. -/
def stmtBIsGlue : PyStmtB → Bool
  | .assignB _ rhs => isComputeExpr rhs
  | .assignB2 _ _ rhs => isComputeExpr rhs
  | .exprStmtB e => isPrintExpr e || isComputeExpr e
  | .raiseB => false
  | .assertB _ => false

/-- Every top-level statement is an import, a loop over glue statements,
or a glue statement. -/
def stmtIsGlue : PyStmt → Bool
  | .imp _ _ => true
  | .basic s => stmtBIsGlue s
  | .forRange _ _ body => body.all stmtBIsGlue
  | .tryExcept _ _ => false
  | .funcDef _ _ => false
  | .classDef _ => false

/-- The iteration counts of the `for _ in range(...)` loops of a
program, in order. -/
def loopCounts (prog : List PyStmt) : List ℕ :=
  prog.filterMap fun s =>
    match s with
    | .forRange _ n _ => some n
    | _ => none

/-- The right-hand side bound to a name by a top-level single assignment
(the first one, scanning in order). -/
def rhsOf (prog : List PyStmt) (v : String) : Option PyExpr :=
  prog.findSome? fun s =>
    match s with
    | .basic (.assignB l rhs) => if l = v then some rhs else none
    | _ => none

/-- Erase exactly the two knobs the variants differ in: the learning
rate passed to `tf.train.GradientDescentOptimizer` and the `range` bound
of a `for` loop. -/
def scrubKnobs : PyStmt → PyStmt
  | .basic (.assignB l (.call1 "tf.train.GradientDescentOptimizer" _)) =>
      .basic (.assignB l (.call1 "tf.train.GradientDescentOptimizer" (.num 0)))
  | .forRange v _ body => .forRange v 0 body
  | s => s

/-- Every framework call head of a program is within the spec's
enumerated primitive list. -/
def usesOnlySpecPrimitives (prog : List PyStmt) : Bool :=
  (progCallHeads prog).all fun fn =>
    !isFrameworkFn fn || specEnumeratedPrimitives.contains fn

/-- Every framework call head of a program is within the spec's
enumerated list extended by the four extra operations the notebook
actually uses. -/
def usesOnlyAmendedPrimitives (prog : List PyStmt) : Bool :=
  (progCallHeads prog).all fun fn =>
    !isFrameworkFn fn || (specEnumeratedPrimitives ++ extraFrameworkPrimitives).contains fn

/-! ### Helper lemmas -/

lemma trainingIters_map_fst
    (step : TrainState → (Fin 2 → ℚ) → (Fin 3 → ℚ) → TrainState)
    (inputs : ℕ → Fin 2 → ℚ) :
    ∀ (l : List ℕ) (s : TrainState),
      (trainingIters step inputs l s).map Prod.fst = l := by
  intro l
  induction l with
  | nil => intro s; rfl
  | cons i rest ih => intro s; simp [trainingIters, ih]

lemma loss_nonneg (W : Fin 3 → Fin 2 → ℚ) (b : Fin 3 → ℚ)
    (x : Fin 2 → ℚ) (y : Fin 3 → ℚ) : 0 ≤ loss W b x y := by
  unfold loss tf_reduce_sum3 tf_square3
  exact Finset.sum_nonneg fun i _ => sq_nonneg _

lemma trainingIters_loss_nonneg
    (step : TrainState → (Fin 2 → ℚ) → (Fin 3 → ℚ) → TrainState)
    (inputs : ℕ → Fin 2 → ℚ) :
    ∀ (l : List ℕ) (s : TrainState),
      (trainingIters step inputs l s).Forall (fun p => 0 ≤ p.2) := by
  intro l
  induction l with
  | nil => intro s; trivial
  | cons i rest ih =>
      intro s
      simp only [trainingIters, List.forall_cons]
      exact ⟨loss_nonneg _ _ _ _, ih _⟩

/-! ### The claims -/

/-- C1: for every 2-dimensional input `x` fed to `placeholder_input` and
every current value of the 3×2 matrix `W` and 3-vector `b`, the tensor
`relu_vector` — constructed by reshaping `x` to `[2,1]`, multiplying by
`W`, reshaping to `[3]`, adding `b` and applying ReLU — equals the
componentwise `max 0 (W*x + b)`. -/
theorem claim_C1 : ∀ (W : Fin 3 → Fin 2 → ℚ) (b : Fin 3 → ℚ) (x : Fin 2 → ℚ),
    relu_vector W b x = fun i => max 0 ((∑ j, W i j * x j) + b i) :=
  fun _ _ _ => rfl

/-- C2: the ipynb loop runs exactly 15 iterations and the `part_000`
loop exactly 150; each iteration emits the pair of the iteration index
and the loss value, and the indices appear in increasing order
`0, 1, ..., N-1` (they are exactly `List.range N`). -/
theorem claim_C2 :
    loopCounts ipynb_prog = [15] ∧ loopCounts p000_prog = [150] ∧
    ∀ (step : TrainState → (Fin 2 → ℚ) → (Fin 3 → ℚ) → TrainState)
      (inputs : ℕ → Fin 2 → ℚ) (s₀ : TrainState),
      (trainingLoop 15 step inputs s₀).length = 15 ∧
      (trainingLoop 15 step inputs s₀).map Prod.fst = List.range 15 ∧
      (trainingLoop 150 step inputs s₀).length = 150 ∧
      (trainingLoop 150 step inputs s₀).map Prod.fst = List.range 150 := by
  refine ⟨rfl, rfl, fun step inputs s₀ => ?_⟩
  have h15 := trainingIters_map_fst step inputs (List.range 15) s₀
  have h150 := trainingIters_map_fst step inputs (List.range 150) s₀
  refine ⟨?_, h15, ?_, h150⟩
  · simpa using congrArg List.length h15
  · simpa using congrArg List.length h150

/-- C3 fails as stated: `tf.reduce_sum` is a framework operation the
notebook calls that is outside the spec's enumerated primitive list
(so are `tf.square`, `tf.global_variables_initializer` and
`tf.layers.dense`). -/
theorem claim_C3_counterexample :
    usesOnlySpecPrimitives p000_prog = false ∧
    usesOnlySpecPrimitives ipynb_prog = false ∧
    "tf.reduce_sum" ∈ progCallHeads p000_prog ∧
    isFrameworkFn "tf.reduce_sum" = true ∧
    "tf.reduce_sum" ∉ specEnumeratedPrimitives := by decide

/-- C3 (amended): every framework operation the notebook calls is among
the spec's enumerated primitives extended by `tf.reduce_sum`,
`tf.square`, `tf.global_variables_initializer` and `tf.layers.dense`. -/
theorem claim_C3 :
    usesOnlyAmendedPrimitives p000_prog = true ∧
    usesOnlyAmendedPrimitives ipynb_prog = true := by decide

/-- C4: every placeholder is created with a declared shape and no bound
data (the `placeholderT` node carries only a name and shape), and each
`session.run` call feeds exactly the placeholders its requested tensors
depend on: the relu evaluation feeds `my_input`, each training step
feeds `my_input` and `my_output`, and the initializer run and the final
run of the two variables feed nothing because those tensors depend on no
placeholder. -/
theorem claim_C4 :
    g_placeholder_input = .placeholderT "my_input" [some 2] ∧
    g_placeholder_output = .placeholderT "my_output" [some 3] ∧
    g_batched_vectors = .placeholderT "Placeholder" [none, some 5] ∧
    p000_runCalls.all feedMatchesDeps = true ∧
    ipynb_runCalls.all feedMatchesDeps = true ∧
    p000_runCalls[1]? = some ⟨[g_relu_vector], ["my_input"]⟩ ∧
    p000_runCalls[2]? = some ⟨[p000_gradient_descent_step, g_loss], ["my_input", "my_output"]⟩ ∧
    p000_runCalls[3]? = some ⟨[g_variable_matrix, g_variable_vector], []⟩ ∧
    placeholdersOfList [g_variable_matrix, g_variable_vector] = [] :=
  ⟨rfl, rfl, rfl, by decide, by decide, rfl, rfl, rfl, rfl⟩

/-- C5: no statement of either variant catches an exception, raises one,
or asserts/validates an input. -/
theorem claim_C5 :
    p000_prog.all (fun s => !stmtHasErrorHandling s) = true ∧
    ipynb_prog.all (fun s => !stmtHasErrorHandling s) = true := by decide

/-- C6: no cell defines a function or class, no call head is a Python
file/network/CLI input-output primitive, and every statement is an
import, a print, or a direct framework/numpy computation (also inside
the training loop's body). -/
theorem claim_C6 :
    p000_prog.all (fun s => !stmtIsDefinition s) = true ∧
    ipynb_prog.all (fun s => !stmtIsDefinition s) = true ∧
    (progCallHeads p000_prog).all (fun fn => !pythonIoPrimitives.contains fn) = true ∧
    (progCallHeads ipynb_prog).all (fun fn => !pythonIoPrimitives.contains fn) = true ∧
    p000_prog.all stmtIsGlue = true ∧
    ipynb_prog.all stmtIsGlue = true := by decide

/-- C7: the reshape pair around the matrix multiplication is a round
trip — reshaping a 2-vector to `[2,1]`, multiplying by the 3×2 matrix
`W` and reshaping the `[3,1]` result back to `[3]` is exactly the
matrix-vector product `W*x`. -/
theorem claim_C7 : ∀ (W : Fin 3 → Fin 2 → ℚ) (x : Fin 2 → ℚ),
    tf_reshape_31_to_3 (tf_matmul_32_21 W (tf_reshape_2_to_21 x)) =
      fun i => ∑ j, W i j * x j :=
  fun _ _ => rfl

/-- C8: for every input vector, the target
`np.maximum(0, np.append(in_vec, 0))*[1, 0, 0]` is
`(max 0 x₁, 0, 0)` — its second and third components vanish, matching
the map `(x₁, x₂) ↦ (relu x₁, 0, 0)`. -/
theorem claim_C8 : ∀ v : Fin 2 → ℚ,
    out_vec_np v = ![reluScalar (v 0), 0, 0] := by
  intro v
  funext i
  fin_cases i <;>
    simp [out_vec_np, np_mask_mul, np_maximum_3, np_append_2, reluScalar]

/-- C9: the two variants are the same program once the optimizer's
learning rate and the loop's range bound are erased; in particular the
layer, the loss and the per-iteration target construction are identical
expressions, and the remaining differences are exactly the learning
rate (`0.1` in `part_000`, `0.07` in the ipynb) and the iteration count
(`150` versus `15`). -/
theorem claim_C9 :
    p000_prog.map scrubKnobs = ipynb_prog.map scrubKnobs ∧
    rhsOf p000_prog "optimizer" =
      some (.call1 "tf.train.GradientDescentOptimizer" (.num (1/10))) ∧
    rhsOf ipynb_prog "optimizer" =
      some (.call1 "tf.train.GradientDescentOptimizer" (.num (7/100))) ∧
    loopCounts p000_prog = [150] ∧
    loopCounts ipynb_prog = [15] ∧
    rhsOf p000_prog "relu_vector" = rhsOf ipynb_prog "relu_vector" ∧
    rhsOf p000_prog "matrix_product" = rhsOf ipynb_prog "matrix_product" ∧
    rhsOf p000_prog "loss" = rhsOf ipynb_prog "loss" :=
  ⟨by decide, rfl, rfl, rfl, rfl, rfl, rfl, rfl⟩

/-- C10: every component of `relu_vector` is nonnegative for every fed
input and variable state, the loss is nonnegative for every input and
target, and every loss value along any execution of the training loop
is nonnegative. -/
theorem claim_C10 :
    (∀ (W : Fin 3 → Fin 2 → ℚ) (b : Fin 3 → ℚ) (x : Fin 2 → ℚ) (i : Fin 3),
        0 ≤ relu_vector W b x i) ∧
    (∀ (W : Fin 3 → Fin 2 → ℚ) (b : Fin 3 → ℚ) (x : Fin 2 → ℚ) (y : Fin 3 → ℚ),
        0 ≤ loss W b x y) ∧
    (∀ (n : ℕ) (step : TrainState → (Fin 2 → ℚ) → (Fin 3 → ℚ) → TrainState)
        (inputs : ℕ → Fin 2 → ℚ) (s₀ : TrainState),
        (trainingLoop n step inputs s₀).Forall (fun p => 0 ≤ p.2)) :=
  ⟨fun W b x i => le_max_left 0 (vector_sum W b x i),
   fun W b x y => loss_nonneg W b x y,
   fun n step inputs s₀ => trainingIters_loss_nonneg step inputs (List.range n) s₀⟩
